import Mathlib

/-!
Verification of the stateful execution engine of
`examples/python-runtime-sandbox/sandbox_kernel_manager.py` (class
`SandboxKernelManager`): message correlation, output collection, timeout
handling, interrupt-and-drain recovery, startup retry, and shutdown.

The embedding is shallow.  The kernel process and the jupyter message-bus
client are external collaborators; their visible behaviour during one call
is supplied as an explicit environment (the messages delivered on the IOPub
channel, the outcome of each readiness attempt of `start`, the shell reply,
...).  All engine code is translated function by function from the source.
-/

namespace SandboxRuntime

/-- An IOPub ("publish") channel message, as `collect_io` inspects it:
`parent` is `msg['parent_header'].get('msg_id')` (`none` when the parent
header carries no id), and the constructor is the `msg['header']['msg_type']`
together with the content fields the code reads.  For `executeResult` and
`displayData` the field is `content['data'].get('text/plain', '')` already
extracted; for `statusMsg` it is `content['execution_state']`. -/
inductive Msg where
  | stream (parent : Option Nat) (name : String) (text : String)
  | executeResult (parent : Option Nat) (textPlain : String)
  | displayData (parent : Option Nat) (textPlain : String)
  | errorMsg (parent : Option Nat) (traceback : List String)
  | statusMsg (parent : Option Nat) (execution_state : String)
  | otherMsg (parent : Option Nat)
deriving DecidableEq, Repr

/-- The parent id of a message: `msg.get('parent_header', {}).get('msg_id')`. -/
def Msg.parent : Msg → Option Nat
  | .stream p _ _ => p
  | .executeResult p _ => p
  | .displayData p _ => p
  | .errorMsg p _ => p
  | .statusMsg p _ => p
  | .otherMsg p => p

/-- `m.emitsB s` holds when processing `m` could append exactly the string `s`
to one of the two accumulators of `collect_io`. -/
def Msg.emitsB : Msg → String → Bool
  | .stream _ _ text, s => s = text
  | .executeResult _ t, s => s = t
  | .displayData _ t, s => s = t
  | .errorMsg _ tb, s => s = String.intercalate "\n" tb
  | .statusMsg _ _, _ => false
  | .otherMsg _, _ => false

/-- The two output accumulators of `execute` (`stdout, stderr = [], []`). -/
structure Acc where
  stdout : List String
  stderr : List String
deriving DecidableEq, Repr

/-- How the collection loop ended: `idle acc rest` when the loop broke on a
status/idle message of the current request (`rest` being the messages still
unread on the channel), `timedOut acc` when the messages available within the
caller's timeout were exhausted without such an idle message, so that the
next `get_iopub_msg()` blocked until `asyncio.wait_for` raised. -/
inductive CollectOutcome where
  | idle (acc : Acc) (rest : List Msg)
  | timedOut (acc : Acc)
deriving DecidableEq, Repr

/-- Final accumulator of a collection outcome. -/
def CollectOutcome.acc : CollectOutcome → Acc
  | .idle a _ => a
  | .timedOut a => a

/-- The inner `collect_io` loop of `execute`: read IOPub messages, skip any
whose parent id is not `msg_id`, classify the rest, stop on status idle.
The list argument is the sequence of messages the channel delivers before
the caller's timeout elapses. -/
def collect_io (msg_id : Nat) : List Msg → Acc → CollectOutcome
  | [], acc => .timedOut acc
  | m :: rest, acc =>
    if m.parent = some msg_id then
      match m with
      | .stream _ name text =>
          if name = "stdout" then
            collect_io msg_id rest ⟨acc.stdout ++ [text], acc.stderr⟩
          else
            collect_io msg_id rest ⟨acc.stdout, acc.stderr ++ [text]⟩
      | .executeResult _ t => collect_io msg_id rest ⟨acc.stdout ++ [t], acc.stderr⟩
      | .displayData _ t => collect_io msg_id rest ⟨acc.stdout ++ [t], acc.stderr⟩
      | .errorMsg _ tb =>
          collect_io msg_id rest ⟨acc.stdout, acc.stderr ++ [String.intercalate "\n" tb]⟩
      | .statusMsg _ st =>
          if st = "idle" then .idle acc rest else collect_io msg_id rest acc
      | .otherMsg _ => collect_io msg_id rest acc
    else collect_io msg_id rest acc

/-- The manager's mutable state, as the methods read it: `hasManager` is
truthiness of `self.kernel_manager` (set in `__init__`, so true on every
reachable state), `hasClient` of `self.kernel_client` (initially `None`),
`hasKernel` is `self.kernel_manager.has_kernel`, `channelsRunning` whether
the client's channels are started. -/
structure KState where
  hasManager : Bool
  hasClient : Bool
  hasKernel : Bool
  channelsRunning : Bool
deriving DecidableEq, Repr

/-- State after a successful `start()`: fresh kernel, fresh client,
channels started. -/
def startedState : KState := ⟨true, true, true, true⟩

/-- Outcome of one readiness attempt of the `for attempt in range(5)` loop of
`start()`: `wait_for_ready` succeeded, or it raised while `is_alive()`
reported the process alive, or it raised while the process was dead. -/
inductive AttemptOutcome where
  | ready
  | failAlive
  | failDead
deriving DecidableEq, Repr

/-- The two fatal startup errors `start()` can raise: `RuntimeError("Kernel
process died unexpectedly during startup.")` and `RuntimeError("Failed to
start kernel after 5 attempts")`. -/
inductive StartErr where
  | diedDuringStartup
  | startExhausted
deriving DecidableEq, Repr

/-- Bookkeeping of a successful `start()`: how many readiness attempts ran
and how many 1-second `asyncio.sleep(1)` pauses were taken. -/
structure StartStats where
  attemptsUsed : Nat
  sleeps : Nat
deriving DecidableEq, Repr

/-- The readiness retry loop of `start()` (`for attempt in range(5)`), with
`fuel` the remaining attempts and the environment giving each attempt's
outcome (`outcomes.getD i .failAlive` is attempt `i`).  A `failAlive`
attempt logs, sleeps one second and retries; a `failDead` attempt raises
immediately; exhausting five attempts raises. -/
def startLoop (outcomes : List AttemptOutcome) :
    Nat → Nat → Nat → Except StartErr StartStats
  | 0, _, _ => .error .startExhausted
  | fuel + 1, used, sleeps =>
    match outcomes.getD used .failAlive with
    | .ready => .ok ⟨used + 1, sleeps⟩
    | .failDead => .error .diedDuringStartup
    | .failAlive => startLoop outcomes fuel (used + 1) (sleeps + 1)

/-- `start()`: (re)start the kernel and client, then run up to five readiness
attempts.  The state effect on success is `startedState`; the returned
statistics record the attempts used and sleeps taken. -/
def start (outcomes : List AttemptOutcome) : Except StartErr StartStats :=
  startLoop outcomes 5 0 0

/-- A Python-level error of a method call on `None` (what the `if
self.kernel_client:` guards of `shutdown` prevent). -/
inductive PyErr where
  | attributeError
deriving DecidableEq, Repr

/-- `self.kernel_client.stop_channels()`: raises when there is no client. -/
def stop_channels (st : KState) : Except PyErr KState :=
  if st.hasClient then .ok { st with channelsRunning := false }
  else .error .attributeError

/-- `await self.kernel_manager.shutdown_kernel()` on the external manager:
the kernel process is gone afterwards. -/
def shutdown_kernel (st : KState) : KState := { st with hasKernel := false }

/-- `shutdown()`: stop the client channels when a client exists, then request
kernel shutdown when a manager exists. -/
def shutdown (st : KState) : Except PyErr KState := do
  let st1 ← if st.hasClient then stop_channels st else pure st
  pure (if st1.hasManager then shutdown_kernel st1 else st1)

/-- One read attempt of the drain loop of `interrupt_and_drain`: a message
arrived within the 0.2-second per-read timeout, or the read timed out, or
the read (or the subscripting of its result) raised some other exception.
The list of reads an environment supplies are those happening before the
5.0-second `asyncio.timeout` deadline; exhausting the list means the
deadline fired during the next read. -/
inductive DrainRead where
  | dmsg (m : Msg)
  | readTimeout
  | readError
deriving DecidableEq, Repr

/-- How the drain phase of `interrupt_and_drain` ended: idle status seen
(`break` from the match), channel quiet or a read raised (`break` from the
inner `except`), or the 5.0-second deadline fired (`TimeoutError` out of
`async with asyncio.timeout(5.0)`). -/
inductive DrainEnd where
  | sawIdle
  | wentQuiet
  | hitDeadline
deriving DecidableEq, Repr

/-- The drain loop of `interrupt_and_drain`: read with a 0.2-second timeout;
stop on a status/idle message; a per-read timeout or any other read error is
caught by the inner `except` and stops the loop; running out of reads means
the 5.0-second total deadline fired. -/
def drainLoop : List DrainRead → DrainEnd
  | [] => .hitDeadline
  | .dmsg m :: rest =>
    match m with
    | .statusMsg _ st => if st = "idle" then .sawIdle else drainLoop rest
    | _ => drainLoop rest
  | .readTimeout :: _ => .wentQuiet
  | .readError :: _ => .wentQuiet

/-- Environment of one `interrupt_and_drain` call: whether
`interrupt_kernel()` succeeds, the drain reads delivered before the total
deadline, and the attempt outcomes for the forced `start()` if one happens. -/
structure DrainEnv where
  interruptOk : Bool
  reads : List DrainRead
  restartOutcomes : List AttemptOutcome
deriving DecidableEq, Repr

deriving instance DecidableEq for Except

/-- What an `interrupt_and_drain` call did: its resulting state (or the
startup error the forced restart raised), whether an interrupt was issued,
and whether `start()` was called. -/
structure DrainReport where
  result : Except StartErr KState
  interruptSent : Bool
  startCalled : Bool
deriving DecidableEq, Repr

/-- `interrupt_and_drain()`: no-op without a manager or client; otherwise
interrupt the kernel and drain the IOPub channel under the total deadline.
A failed interrupt or a deadline `TimeoutError` reaches the outer `except`,
which forces `await self.start()`; an error of that restart propagates. -/
def interrupt_and_drain (st : KState) (env : DrainEnv) : DrainReport :=
  if !st.hasManager || !st.hasClient then ⟨.ok st, false, false⟩
  else if !env.interruptOk then
    match start env.restartOutcomes with
    | .ok _ => ⟨.ok startedState, true, true⟩
    | .error e => ⟨.error e, true, true⟩
  else
    match drainLoop env.reads with
    | .hitDeadline =>
      match start env.restartOutcomes with
      | .ok _ => ⟨.ok startedState, true, true⟩
      | .error e => ⟨.error e, true, true⟩
    | _ => ⟨.ok st, true, false⟩

/-- The final shell-channel reply of a request, as `execute` reads it:
`status` is `shell_msg['content'].get('status')` (`none` when the content
has no status key). -/
structure ShellReply where
  status : Option String
deriving DecidableEq, Repr

/-- Environment of one `execute(code, timeout)` call, fixing the behaviour
of the external kernel and message bus during the call: the `msg_id` that
`kernel_client.execute(code)` returns; `aliveResult` of the `is_alive()`
query (`none` when it raised, which the `except: pass` turns into "not
alive"); the attempt outcomes for the self-heal `start()` of step 1 and the
restart `start()` of step 2; the IOPub messages already `queued` when the
pre-flush runs; the messages `arriving` on IOPub after submission within the
caller's timeout; the `shellReply` (`none` when `get_shell_msg` does not
answer within its 1.0-second timeout); and the drain environment used if
`interrupt_and_drain` runs. -/
structure ExecEnv where
  msg_id : Nat
  aliveResult : Option Bool
  selfHealOutcomes : List AttemptOutcome
  reviveOutcomes : List AttemptOutcome
  queued : List Msg
  arriving : List Msg
  shellReply : Option ShellReply
  drainEnv : DrainEnv
deriving DecidableEq, Repr

/-- The triple `execute` returns: joined stdout, joined stderr, exit code. -/
structure ExecResult where
  stdout : String
  stderr : String
  exit_code : Nat
deriving DecidableEq, Repr

/-- Observable actions of one `execute` call: how many times `start()` ran
(self-heal, liveness restart, and inside recovery), whether the shell reply
channel was read, and whether `interrupt_and_drain` was invoked. -/
structure ExecTrace where
  startCalls : Nat
  readReply : Bool
  drainCalled : Bool
deriving DecidableEq, Repr

/-- Step 3 of `execute`: flush the IOPub channel by reading with a
10-millisecond timeout until it raises; every queued message is read and
discarded, leaving the channel empty. -/
def flush_iopub : List Msg → List Msg
  | [] => []
  | _ :: rest => flush_iopub rest

/-- The engine-injected timeout notice: `f"\n[Timeout after
\x7btimeout\x7ds]"`. -/
def timeoutNotice (timeout : Nat) : String :=
  "\n[Timeout after " ++ toString timeout ++ "s]"

/-- Step 1 of `execute`: `if not self.kernel_client or not
self.kernel_manager.has_kernel: await self.start()`.  Returns the state and
the number of `start()` calls made. -/
def selfHealStep (st : KState) (env : ExecEnv) : Except StartErr (KState × Nat) :=
  if !st.hasClient || !st.hasKernel then
    match start env.selfHealOutcomes with
    | .ok _ => .ok (startedState, 1)
    | .error e => .error e
  else .ok (st, 0)

/-- Step 2 of `execute`: query `is_alive()` (an exception leaves `is_alive`
false) and restart when not alive. -/
def reviveStep (st : KState) (env : ExecEnv) (calls : Nat) :
    Except StartErr (KState × Nat) :=
  if env.aliveResult.getD false then .ok (st, calls)
  else
    match start env.reviveOutcomes with
    | .ok _ => .ok (startedState, calls + 1)
    | .error e => .error e

/-- The `except asyncio.TimeoutError` handler of `execute`: run
`interrupt_and_drain`, then return the partial output with the timeout
notice appended to stderr and exit code 130.  An error of the forced
restart inside recovery propagates. -/
def timeoutPath (acc : Acc) (st : KState) (timeout : Nat) (env : ExecEnv)
    (calls : Nat) (readReply : Bool) :
    Except StartErr (ExecResult × KState × ExecTrace) :=
  let rep := interrupt_and_drain st env.drainEnv
  match rep.result with
  | .ok st3 =>
    .ok (⟨String.join acc.stdout, String.join acc.stderr ++ timeoutNotice timeout, 130⟩,
         st3, ⟨calls + (if rep.startCalled then 1 else 0), readReply, true⟩)
  | .error e => .error e

/-- Steps 3-5 of `execute` after the session is healthy: pre-flush the
queued messages, submit (obtaining `env.msg_id`), collect IOPub output
bounded by the caller's timeout, and either read the single shell reply
(exit code 1 on an error status, 0 otherwise) or take the timeout path.
A `get_shell_msg` that answers nothing within 1.0 second raises the same
`asyncio.TimeoutError` the collection timeout does, so it also lands in the
timeout path. -/
def submitAndCollect (st : KState) (timeout : Nat) (env : ExecEnv) (calls : Nat) :
    Except StartErr (ExecResult × KState × ExecTrace) :=
  match collect_io env.msg_id (flush_iopub env.queued ++ env.arriving) ⟨[], []⟩ with
  | .idle acc _ =>
    match env.shellReply with
    | some reply =>
      .ok (⟨String.join acc.stdout, String.join acc.stderr,
            if reply.status = some "error" then 1 else 0⟩,
           st, ⟨calls, true, false⟩)
    | none => timeoutPath acc st timeout env calls true
  | .timedOut acc => timeoutPath acc st timeout env calls false

/-- `execute(code, timeout)`: self-heal, liveness restart, then submit and
collect, all under the single `async with self.lock`. -/
def execute (st : KState) (timeout : Nat) (env : ExecEnv) :
    Except StartErr (ExecResult × KState × ExecTrace) :=
  match selfHealStep st env with
  | .error e => .error e
  | .ok (st1, c1) =>
    match reviveStep st1 env c1 with
    | .error e => .error e
    | .ok (st2, c2) => submitAndCollect st2 timeout env c2

/-! ### Helper lemmas -/

/-- The pre-flush reads and discards every queued message. -/
theorem flush_iopub_eq_nil : ∀ q : List Msg, flush_iopub q = []
  | [] => rfl
  | _ :: rest => flush_iopub_eq_nil rest

/-- Whether a message is the status/idle signal that ends the loops. -/
def isIdleMsg : Msg → Bool
  | .statusMsg _ st => st = "idle"
  | _ => false

/-- The accumulator update one matched non-idle message performs. -/
def stepAcc (acc : Acc) : Msg → Acc
  | .stream _ name text =>
    if name = "stdout" then ⟨acc.stdout ++ [text], acc.stderr⟩
    else ⟨acc.stdout, acc.stderr ++ [text]⟩
  | .executeResult _ t => ⟨acc.stdout ++ [t], acc.stderr⟩
  | .displayData _ t => ⟨acc.stdout ++ [t], acc.stderr⟩
  | .errorMsg _ tb => ⟨acc.stdout, acc.stderr ++ [String.intercalate "\n" tb]⟩
  | .statusMsg _ _ => acc
  | .otherMsg _ => acc

theorem collect_io_cons_skip (msg_id : Nat) (m : Msg) (rest : List Msg) (acc : Acc)
    (h : m.parent ≠ some msg_id) :
    collect_io msg_id (m :: rest) acc = collect_io msg_id rest acc := by
  cases m <;> simp_all [collect_io, Msg.parent]

theorem collect_io_cons_matched (msg_id : Nat) (m : Msg) (rest : List Msg) (acc : Acc)
    (hp : m.parent = some msg_id) (hni : isIdleMsg m = false) :
    collect_io msg_id (m :: rest) acc = collect_io msg_id rest (stepAcc acc m) := by
  cases m with
  | stream p name text =>
    by_cases hn : name = "stdout" <;>
      simp_all [collect_io, Msg.parent, stepAcc]
  | statusMsg p st =>
    simp_all [collect_io, Msg.parent, stepAcc, isIdleMsg]
  | _ => simp_all [collect_io, Msg.parent, stepAcc]

theorem collect_io_cons_idle (msg_id : Nat) (p : Option Nat) (rest : List Msg) (acc : Acc)
    (hp : p = some msg_id) :
    collect_io msg_id (.statusMsg p "idle" :: rest) acc = .idle acc rest := by
  subst hp; simp [collect_io, Msg.parent]

theorem stepAcc_stdout (acc : Acc) (m : Msg) (s : String)
    (hs : s ∈ (stepAcc acc m).stdout) : s ∈ acc.stdout ∨ m.emitsB s = true := by
  cases m with
  | stream p name text =>
    by_cases hn : name = "stdout" <;>
      simp_all [stepAcc, Msg.emitsB]
  | _ => simp_all [stepAcc, Msg.emitsB]

theorem stepAcc_stderr (acc : Acc) (m : Msg) (s : String)
    (hs : s ∈ (stepAcc acc m).stderr) : s ∈ acc.stderr ∨ m.emitsB s = true := by
  cases m with
  | stream p name text =>
    by_cases hn : name = "stdout" <;>
      simp_all [stepAcc, Msg.emitsB]
  | _ => simp_all [stepAcc, Msg.emitsB]

/-- Provenance: every string the collection loop ever puts into an
accumulator was already there, or is emitted by a message of the input
list whose parent id is the current request's. -/
theorem collect_io_provenance (msg_id : Nat) (msgs : List Msg) :
    ∀ acc : Acc,
      (∀ s ∈ (collect_io msg_id msgs acc).acc.stdout,
          s ∈ acc.stdout ∨ ∃ m, m ∈ msgs ∧ m.parent = some msg_id ∧ m.emitsB s = true) ∧
      (∀ s ∈ (collect_io msg_id msgs acc).acc.stderr,
          s ∈ acc.stderr ∨ ∃ m, m ∈ msgs ∧ m.parent = some msg_id ∧ m.emitsB s = true) := by
  induction msgs with
  | nil =>
    intro acc
    exact ⟨fun s hs => Or.inl hs, fun s hs => Or.inl hs⟩
  | cons m rest ih =>
    intro acc
    by_cases hp : m.parent = some msg_id
    · by_cases hi : isIdleMsg m = true
      · obtain ⟨p, st⟩ : ∃ p st, m = .statusMsg p st := by
          cases m <;> simp_all [isIdleMsg]
        obtain ⟨st', hm⟩ := st
        subst hm
        have hst : st' = "idle" := by simpa [isIdleMsg] using hi
        subst hst
        rw [collect_io_cons_idle msg_id p rest acc hp]
        exact ⟨fun s hs => Or.inl hs, fun s hs => Or.inl hs⟩
      · rw [collect_io_cons_matched msg_id m rest acc hp (by simpa using hi)]
        obtain ⟨ih1, ih2⟩ := ih (stepAcc acc m)
        constructor
        · intro s hs
          rcases ih1 s hs with h | ⟨m', hm', h1, h2⟩
          · rcases stepAcc_stdout acc m s h with h' | h'
            · exact Or.inl h'
            · exact Or.inr ⟨m, List.mem_cons_self m rest, hp, h'⟩
          · exact Or.inr ⟨m', List.mem_cons_of_mem m hm', h1, h2⟩
        · intro s hs
          rcases ih2 s hs with h | ⟨m', hm', h1, h2⟩
          · rcases stepAcc_stderr acc m s h with h' | h'
            · exact Or.inl h'
            · exact Or.inr ⟨m, List.mem_cons_self m rest, hp, h'⟩
          · exact Or.inr ⟨m', List.mem_cons_of_mem m hm', h1, h2⟩
    · rw [collect_io_cons_skip msg_id m rest acc hp]
      obtain ⟨ih1, ih2⟩ := ih acc
      constructor
      · intro s hs
        rcases ih1 s hs with h | ⟨m', hm', h1, h2⟩
        · exact Or.inl h
        · exact Or.inr ⟨m', List.mem_cons_of_mem m hm', h1, h2⟩
      · intro s hs
        rcases ih2 s hs with h | ⟨m', hm', h1, h2⟩
        · exact Or.inl h
        · exact Or.inr ⟨m', List.mem_cons_of_mem m hm', h1, h2⟩

/-- Shape of every successful `execute`: the returned stdout is the join of
the final stdout accumulator of the collection loop run on the arriving
messages (the queued ones having been flushed away), and stderr is the join
of the final stderr accumulator, with the timeout notice appended exactly on
the timeout path. -/
theorem execute_ok_shape (st : KState) (t : Nat) (env : ExecEnv)
    (out : ExecResult × KState × ExecTrace) (h : execute st t env = .ok out) :
    out.1.stdout = String.join (collect_io env.msg_id env.arriving ⟨[], []⟩).acc.stdout ∧
    (out.1.stderr = String.join (collect_io env.msg_id env.arriving ⟨[], []⟩).acc.stderr ∨
     out.1.stderr
       = String.join (collect_io env.msg_id env.arriving ⟨[], []⟩).acc.stderr
           ++ timeoutNotice t) ∧
    (out.1.exit_code = 0 ∨ out.1.exit_code = 1 ∨ out.1.exit_code = 130) := by
  unfold execute at h
  cases hsh : selfHealStep st env with
  | error e => rw [hsh] at h; exact absurd h (by simp)
  | ok p =>
    obtain ⟨st1, c1⟩ := p
    rw [hsh] at h
    dsimp only at h
    cases hrv : reviveStep st1 env c1 with
    | error e => rw [hrv] at h; exact absurd h (by simp)
    | ok q =>
      obtain ⟨st2, c2⟩ := q
      rw [hrv] at h
      dsimp only at h
      unfold submitAndCollect at h
      rw [flush_iopub_eq_nil, List.nil_append] at h
      cases hcol : collect_io env.msg_id env.arriving ⟨[], []⟩ with
      | idle acc rest =>
        rw [hcol] at h
        dsimp only at h
        cases hsr : env.shellReply with
        | some reply =>
          rw [hsr] at h
          dsimp only at h
          simp only [Except.ok.injEq] at h
          subst h
          refine ⟨by simp [hcol, CollectOutcome.acc],
                  Or.inl (by simp [hcol, CollectOutcome.acc]), ?_⟩
          by_cases hr : reply.status = some "error" <;> simp [hr]
        | none =>
          rw [hsr] at h
          dsimp only at h
          unfold timeoutPath at h
          dsimp only at h
          cases hd : (interrupt_and_drain st2 env.drainEnv).result with
          | ok st3 =>
            rw [hd] at h
            dsimp only at h
            simp only [Except.ok.injEq] at h
            subst h
            exact ⟨by simp [hcol, CollectOutcome.acc],
                   Or.inr (by simp [hcol, CollectOutcome.acc]), Or.inr (Or.inr rfl)⟩
          | error e => rw [hd] at h; exact absurd h (by simp)
      | timedOut acc =>
        rw [hcol] at h
        dsimp only at h
        unfold timeoutPath at h
        dsimp only at h
        cases hd : (interrupt_and_drain st2 env.drainEnv).result with
        | ok st3 =>
          rw [hd] at h
          dsimp only at h
          simp only [Except.ok.injEq] at h
          subst h
          exact ⟨by simp [hcol, CollectOutcome.acc],
                 Or.inr (by simp [hcol, CollectOutcome.acc]), Or.inr (Or.inr rfl)⟩
        | error e => rw [hd] at h; exact absurd h (by simp)

/-! ### Claim theorems -/

/-- C1: every publish-channel message whose parent id differs from the
request id returned at submission is discarded without effect on the
collection loop, and the stdout/stderr of every successful `execute` result
are joins of strings each emitted by a message whose parent id equals the
request id (stderr possibly followed by the engine's own timeout notice), so
no content of a prior — possibly timed-out — request ever appears. -/
theorem C1_correlation_filtering :
    (∀ (msg_id : Nat) (m : Msg) (rest : List Msg) (acc : Acc),
        m.parent ≠ some msg_id →
        collect_io msg_id (m :: rest) acc = collect_io msg_id rest acc) ∧
    (∀ (st : KState) (t : Nat) (env : ExecEnv) (out : ExecResult × KState × ExecTrace),
        execute st t env = .ok out →
        ∃ outs errs : List String,
          out.1.stdout = String.join outs ∧
          (out.1.stderr = String.join errs ∨
            out.1.stderr = String.join errs ++ timeoutNotice t) ∧
          (∀ s ∈ outs, ∃ m, m ∈ env.arriving ∧ m.parent = some env.msg_id ∧
            m.emitsB s = true) ∧
          (∀ s ∈ errs, ∃ m, m ∈ env.arriving ∧ m.parent = some env.msg_id ∧
            m.emitsB s = true)) := by
  constructor
  · exact fun msg_id m rest acc h => collect_io_cons_skip msg_id m rest acc h
  · intro st t env out h
    obtain ⟨h1, h2, -⟩ := execute_ok_shape st t env out h
    refine ⟨(collect_io env.msg_id env.arriving ⟨[], []⟩).acc.stdout,
            (collect_io env.msg_id env.arriving ⟨[], []⟩).acc.stderr, h1, h2, ?_, ?_⟩
    · intro s hs
      rcases (collect_io_provenance env.msg_id env.arriving ⟨[], []⟩).1 s hs with hmem | hex
      · simp at hmem
      · exact hex
    · intro s hs
      rcases (collect_io_provenance env.msg_id env.arriving ⟨[], []⟩).2 s hs with hmem | hex
      · simp at hmem
      · exact hex

/-- A concrete environment for the C1 witness: one stale queued message, one
stale arriving message (parent 1) amid the current request's (id 2) output. -/
def envC1 : ExecEnv :=
  ⟨2, some true, [], [],
   [Msg.stream (some 1) "stdout" "stale"],
   [Msg.stream (some 1) "stdout" "ghost", Msg.stream (some 2) "stdout" "ok",
    Msg.statusMsg (some 2) "idle"],
   some ⟨some "ok"⟩, ⟨true, [], []⟩⟩

/-- Witness for C1 at the concrete run `envC1`. -/
theorem C1_correlation_filtering_witness :
    ∃ outs errs : List String,
      (ExecResult.mk "ok" "" 0).stdout = String.join outs ∧
      ((ExecResult.mk "ok" "" 0).stderr = String.join errs ∨
        (ExecResult.mk "ok" "" 0).stderr = String.join errs ++ timeoutNotice 10) ∧
      (∀ s ∈ outs, ∃ m, m ∈ envC1.arriving ∧ m.parent = some envC1.msg_id ∧
        m.emitsB s = true) ∧
      (∀ s ∈ errs, ∃ m, m ∈ envC1.arriving ∧ m.parent = some envC1.msg_id ∧
        m.emitsB s = true) :=
  C1_correlation_filtering.2 ⟨true, true, true, true⟩ 10 envC1
    (⟨"ok", "", 0⟩, ⟨true, true, true, true⟩, ⟨0, true, false⟩) (by decide)

/-- C5: classification of the messages attributed to the current request:
a stream message on the stdout channel appends its text to the stdout
accumulator, a stream message on any other channel to the stderr
accumulator, an execution result or display-data message appends its
plain-text form to stdout, an error message appends its traceback joined
with newlines to stderr, and a status/idle message ends the loop; the
returned stdout of every successful `execute` is the ordered concatenation
of the appended texts, and likewise for stderr (with the engine's timeout
notice appended exactly on the timeout path). -/
theorem C5_message_classification :
    (∀ (msg_id : Nat) (p : Option Nat) (name text : String) (rest : List Msg) (acc : Acc),
        p = some msg_id → name = "stdout" →
        collect_io msg_id (.stream p name text :: rest) acc
          = collect_io msg_id rest ⟨acc.stdout ++ [text], acc.stderr⟩) ∧
    (∀ (msg_id : Nat) (p : Option Nat) (name text : String) (rest : List Msg) (acc : Acc),
        p = some msg_id → name ≠ "stdout" →
        collect_io msg_id (.stream p name text :: rest) acc
          = collect_io msg_id rest ⟨acc.stdout, acc.stderr ++ [text]⟩) ∧
    (∀ (msg_id : Nat) (p : Option Nat) (t : String) (rest : List Msg) (acc : Acc),
        p = some msg_id →
        collect_io msg_id (.executeResult p t :: rest) acc
          = collect_io msg_id rest ⟨acc.stdout ++ [t], acc.stderr⟩) ∧
    (∀ (msg_id : Nat) (p : Option Nat) (t : String) (rest : List Msg) (acc : Acc),
        p = some msg_id →
        collect_io msg_id (.displayData p t :: rest) acc
          = collect_io msg_id rest ⟨acc.stdout ++ [t], acc.stderr⟩) ∧
    (∀ (msg_id : Nat) (p : Option Nat) (tb : List String) (rest : List Msg) (acc : Acc),
        p = some msg_id →
        collect_io msg_id (.errorMsg p tb :: rest) acc
          = collect_io msg_id rest ⟨acc.stdout, acc.stderr ++ [String.intercalate "\n" tb]⟩) ∧
    (∀ (msg_id : Nat) (p : Option Nat) (rest : List Msg) (acc : Acc),
        p = some msg_id →
        collect_io msg_id (.statusMsg p "idle" :: rest) acc = .idle acc rest) ∧
    (∀ (st : KState) (t : Nat) (env : ExecEnv) (out : ExecResult × KState × ExecTrace),
        execute st t env = .ok out →
        out.1.stdout = String.join (collect_io env.msg_id env.arriving ⟨[], []⟩).acc.stdout ∧
        (out.1.stderr
            = String.join (collect_io env.msg_id env.arriving ⟨[], []⟩).acc.stderr ∨
          out.1.stderr
            = String.join (collect_io env.msg_id env.arriving ⟨[], []⟩).acc.stderr
                ++ timeoutNotice t)) := by
  refine ⟨?_, ?_, ?_, ?_, ?_, ?_, ?_⟩
  · intro msg_id p name text rest acc hp hn
    subst hp; subst hn
    simp [collect_io, Msg.parent]
  · intro msg_id p name text rest acc hp hn
    subst hp
    simp [collect_io, Msg.parent, hn]
  · intro msg_id p t rest acc hp
    subst hp; simp [collect_io, Msg.parent]
  · intro msg_id p t rest acc hp
    subst hp; simp [collect_io, Msg.parent]
  · intro msg_id p tb rest acc hp
    subst hp; simp [collect_io, Msg.parent]
  · exact fun msg_id p rest acc hp => collect_io_cons_idle msg_id p rest acc hp
  · exact fun st t env out h =>
      ⟨(execute_ok_shape st t env out h).1, (execute_ok_shape st t env out h).2.1⟩

/-- Witness for C5 at concrete messages of each kind. -/
theorem C5_message_classification_witness :
    (collect_io 1 [Msg.stream (some 1) "stdout" "A"] ⟨[], []⟩
       = collect_io 1 [] ⟨["A"], []⟩) ∧
    (collect_io 1 [Msg.stream (some 1) "stderr" "B"] ⟨[], []⟩
       = collect_io 1 [] ⟨[], ["B"]⟩) ∧
    (collect_io 1 [Msg.executeResult (some 1) "42"] ⟨[], []⟩
       = collect_io 1 [] ⟨["42"], []⟩) ∧
    (collect_io 1 [Msg.errorMsg (some 1) ["x", "y"]] ⟨[], []⟩
       = collect_io 1 [] ⟨[], [String.intercalate "\n" ["x", "y"]]⟩) ∧
    (collect_io 1 [Msg.statusMsg (some 1) "idle"] ⟨["A"], []⟩
       = .idle ⟨["A"], []⟩ []) := by
  refine ⟨?_, ?_, ?_, ?_, ?_⟩
  · exact C5_message_classification.1 1 (some 1) "stdout" "A" [] ⟨[], []⟩ rfl rfl
  · exact C5_message_classification.2.1 1 (some 1) "stderr" "B" [] ⟨[], []⟩ rfl (by decide)
  · exact C5_message_classification.2.2.1 1 (some 1) "42" [] ⟨[], []⟩ rfl
  · exact C5_message_classification.2.2.2.2.1 1 (some 1) ["x", "y"] [] ⟨[], []⟩ rfl
  · exact C5_message_classification.2.2.2.2.2.1 1 (some 1) [] ⟨["A"], []⟩ rfl

/-- When the shell reply never arrives (`env.shellReply = none`), a
successful `execute` can only have come through the timeout path: exit code
130 and `interrupt_and_drain` invoked, regardless of how the collection
loop ended. -/
theorem execute_shellNone (st : KState) (t : Nat) (env : ExecEnv)
    (out : ExecResult × KState × ExecTrace) (hsr : env.shellReply = none)
    (h : execute st t env = .ok out) :
    out.1.exit_code = 130 ∧ out.2.2.drainCalled = true := by
  unfold execute at h
  cases hsh : selfHealStep st env with
  | error e => rw [hsh] at h; exact absurd h (by simp)
  | ok p =>
    obtain ⟨st1, c1⟩ := p
    rw [hsh] at h
    dsimp only at h
    cases hrv : reviveStep st1 env c1 with
    | error e => rw [hrv] at h; exact absurd h (by simp)
    | ok q =>
      obtain ⟨st2, c2⟩ := q
      rw [hrv] at h
      dsimp only at h
      unfold submitAndCollect at h
      cases hcol : collect_io env.msg_id (flush_iopub env.queued ++ env.arriving) ⟨[], []⟩ with
      | idle acc rest =>
        rw [hcol] at h
        dsimp only at h
        rw [hsr] at h
        dsimp only at h
        unfold timeoutPath at h
        dsimp only at h
        cases hd : (interrupt_and_drain st2 env.drainEnv).result with
        | ok st3 =>
          rw [hd] at h
          dsimp only at h
          simp only [Except.ok.injEq] at h
          subst h
          exact ⟨rfl, rfl⟩
        | error e => rw [hd] at h; exact absurd h (by simp)
      | timedOut acc =>
        rw [hcol] at h
        dsimp only at h
        unfold timeoutPath at h
        dsimp only at h
        cases hd : (interrupt_and_drain st2 env.drainEnv).result with
        | ok st3 =>
          rw [hd] at h
          dsimp only at h
          simp only [Except.ok.injEq] at h
          subst h
          exact ⟨rfl, rfl⟩
        | error e => rw [hd] at h; exact absurd h (by simp)

/-- C2 (amended): when the collection loop exceeds the timeout before an
idle signal, `execute` invokes interrupt-and-drain recovery, never reads the
reply channel, and — provided any forced restart during recovery succeeds —
returns the partial stdout, the partial stderr with the timeout notice
appended, and exit code 130, raising no error. -/
theorem C2_timeout_gives_130 (st : KState) (t : Nat) (env : ExecEnv) (acc : Acc)
    (st3 : KState)
    (hclient : st.hasClient = true) (hkernel : st.hasKernel = true)
    (halive : env.aliveResult = some true)
    (hcol : collect_io env.msg_id (flush_iopub env.queued ++ env.arriving) ⟨[], []⟩
              = .timedOut acc)
    (hrec : (interrupt_and_drain st env.drainEnv).result = .ok st3) :
    execute st t env
      = .ok (⟨String.join acc.stdout, String.join acc.stderr ++ timeoutNotice t, 130⟩,
             st3,
             ⟨if (interrupt_and_drain st env.drainEnv).startCalled then 1 else 0,
              false, true⟩) := by
  have h1 : selfHealStep st env = .ok (st, 0) := by
    unfold selfHealStep; rw [hclient, hkernel]; simp
  have h2 : reviveStep st env 0 = .ok (st, 0) := by
    unfold reviveStep; rw [halive]; simp
  unfold execute
  rw [h1]
  dsimp only
  rw [h2]
  dsimp only
  unfold submitAndCollect
  rw [hcol]
  dsimp only
  unfold timeoutPath
  dsimp only
  rw [hrec]
  dsimp only
  simp [Nat.zero_add]

/-- A concrete run for the C2 counterexample: the collection loop times out,
the interrupt fails, and the forced restart finds the process dead. -/
def envC2x : ExecEnv := ⟨1, some true, [], [], [], [], none, ⟨false, [], [.failDead]⟩⟩

/-- Counterexample to C2 as stated: at `envC2x` the collection loop exceeds
the timeout, yet `execute` raises the startup error of the failed forced
restart to the caller instead of returning a 130 result. -/
theorem C2_timeout_gives_130_counterexample :
    collect_io envC2x.msg_id (flush_iopub envC2x.queued ++ envC2x.arriving) ⟨[], []⟩
        = .timedOut ⟨[], []⟩ ∧
    execute ⟨true, true, true, true⟩ 5 envC2x = .error .diedDuringStartup :=
  ⟨by decide, by decide⟩

/-- A concrete run for the C2 witness: partial stdout, no idle signal, the
drain goes quiet after the interrupt. -/
def envC2w : ExecEnv :=
  ⟨1, some true, [], [], [], [Msg.stream (some 1) "stdout" "partial"], none,
   ⟨true, [.readTimeout], []⟩⟩

/-- Witness for C2 (amended) at the concrete run `envC2w`. -/
theorem C2_timeout_gives_130_witness :
    execute ⟨true, true, true, true⟩ 5 envC2w
      = .ok (⟨String.join ["partial"], String.join [] ++ timeoutNotice 5, 130⟩,
             ⟨true, true, true, true⟩,
             ⟨if (interrupt_and_drain ⟨true, true, true, true⟩ envC2w.drainEnv).startCalled
                 then 1 else 0,
              false, true⟩) :=
  C2_timeout_gives_130 ⟨true, true, true, true⟩ 5 envC2w ⟨["partial"], []⟩
    ⟨true, true, true, true⟩ rfl rfl rfl (by decide) (by decide)

/-- C4: when the collection loop ends by observing status idle and the shell
reply arrives within its short fixed timeout, `execute` reads that one reply
and returns the joined accumulators with exit code 1 on an error status and
0 otherwise; and the exit code of every successful `execute` is 0, 1 or
130. -/
theorem C4_reply_status_and_exit_codes :
    (∀ (st : KState) (t : Nat) (env : ExecEnv) (acc : Acc) (rest : List Msg)
        (reply : ShellReply),
        st.hasClient = true → st.hasKernel = true → env.aliveResult = some true →
        collect_io env.msg_id (flush_iopub env.queued ++ env.arriving) ⟨[], []⟩
            = .idle acc rest →
        env.shellReply = some reply →
        execute st t env
          = .ok (⟨String.join acc.stdout, String.join acc.stderr,
                  if reply.status = some "error" then 1 else 0⟩,
                 st, ⟨0, true, false⟩)) ∧
    (∀ (st : KState) (t : Nat) (env : ExecEnv) (out : ExecResult × KState × ExecTrace),
        execute st t env = .ok out →
        out.1.exit_code = 0 ∨ out.1.exit_code = 1 ∨ out.1.exit_code = 130) := by
  constructor
  · intro st t env acc rest reply hclient hkernel halive hcol hsr
    have h1 : selfHealStep st env = .ok (st, 0) := by
      unfold selfHealStep; rw [hclient, hkernel]; simp
    have h2 : reviveStep st env 0 = .ok (st, 0) := by
      unfold reviveStep; rw [halive]; simp
    unfold execute
    rw [h1]
    dsimp only
    rw [h2]
    dsimp only
    unfold submitAndCollect
    rw [hcol]
    dsimp only
    rw [hsr]
  · exact fun st t env out h => (execute_ok_shape st t env out h).2.2

/-- A concrete run for the C4 witness: an error traceback, then idle, then
an error-status reply. -/
def envC4 : ExecEnv :=
  ⟨3, some true, [], [], [],
   [Msg.errorMsg (some 3) ["Trace", "Err"], Msg.statusMsg (some 3) "idle"],
   some ⟨some "error"⟩, ⟨true, [], []⟩⟩

/-- Witness for C4 at the concrete run `envC4`. -/
theorem C4_reply_status_and_exit_codes_witness :
    execute ⟨true, true, true, true⟩ 10 envC4
      = .ok (⟨String.join [], String.join [String.intercalate "\n" ["Trace", "Err"]],
              if (ShellReply.mk (some "error")).status = some "error" then 1 else 0⟩,
             ⟨true, true, true, true⟩, ⟨0, true, false⟩) :=
  C4_reply_status_and_exit_codes.1 ⟨true, true, true, true⟩ 10 envC4
    ⟨[], [String.intercalate "\n" ["Trace", "Err"]]⟩ [] ⟨some "error"⟩
    rfl rfl rfl (by decide) rfl

/-- C10: when the collection loop completes by observing status idle but the
shell reply read itself times out, `execute` does not return exit code 0: it
takes the same timeout failure path, invoking interrupt-and-drain and
returning the fully collected stdout and the stderr with the timeout notice
appended and exit code 130 (and every successful `execute` with no reply
available has exit code 130 and a drain invocation). -/
theorem C10_reply_timeout_gives_130 :
    (∀ (st : KState) (t : Nat) (env : ExecEnv) (acc : Acc) (rest : List Msg)
        (st3 : KState),
        st.hasClient = true → st.hasKernel = true → env.aliveResult = some true →
        collect_io env.msg_id (flush_iopub env.queued ++ env.arriving) ⟨[], []⟩
            = .idle acc rest →
        env.shellReply = none →
        (interrupt_and_drain st env.drainEnv).result = .ok st3 →
        execute st t env
          = .ok (⟨String.join acc.stdout, String.join acc.stderr ++ timeoutNotice t, 130⟩,
                 st3,
                 ⟨if (interrupt_and_drain st env.drainEnv).startCalled then 1 else 0,
                  true, true⟩)) ∧
    (∀ (st : KState) (t : Nat) (env : ExecEnv) (out : ExecResult × KState × ExecTrace),
        env.shellReply = none → execute st t env = .ok out →
        out.1.exit_code = 130 ∧ out.2.2.drainCalled = true) := by
  constructor
  · intro st t env acc rest st3 hclient hkernel halive hcol hsr hrec
    have h1 : selfHealStep st env = .ok (st, 0) := by
      unfold selfHealStep; rw [hclient, hkernel]; simp
    have h2 : reviveStep st env 0 = .ok (st, 0) := by
      unfold reviveStep; rw [halive]; simp
    unfold execute
    rw [h1]
    dsimp only
    rw [h2]
    dsimp only
    unfold submitAndCollect
    rw [hcol]
    dsimp only
    rw [hsr]
    dsimp only
    unfold timeoutPath
    dsimp only
    rw [hrec]
    dsimp only
    simp [Nat.zero_add]
  · exact fun st t env out hsr h => execute_shellNone st t env out hsr h

/-- A concrete run for the C10 witness: output and idle arrive in time, but
the shell reply does not; the drain then sees an idle immediately. -/
def envC10 : ExecEnv :=
  ⟨4, some true, [], [], [],
   [Msg.stream (some 4) "stdout" "done", Msg.statusMsg (some 4) "idle"],
   none, ⟨true, [.dmsg (Msg.statusMsg none "idle")], []⟩⟩

/-- Witness for C10 at the concrete run `envC10`. -/
theorem C10_reply_timeout_gives_130_witness :
    execute ⟨true, true, true, true⟩ 7 envC10
      = .ok (⟨String.join ["done"], String.join [] ++ timeoutNotice 7, 130⟩,
             ⟨true, true, true, true⟩,
             ⟨if (interrupt_and_drain ⟨true, true, true, true⟩ envC10.drainEnv).startCalled
                 then 1 else 0,
              true, true⟩) :=
  C10_reply_timeout_gives_130.1 ⟨true, true, true, true⟩ 7 envC10 ⟨["done"], []⟩ []
    ⟨true, true, true, true⟩ rfl rfl rfl (by decide) rfl (by decide)

/-- C6 (amended): `interrupt_and_drain` is a no-op when no manager or client
exists; otherwise it sends an interrupt and drains publish messages under
the 5-second total deadline with a 0.2-second per-message read timeout,
stopping as soon as a status-idle message is observed or a read attempt
itself times out or raises; and it calls `start()` to force a full restart
if and only if the interrupt call fails or the total deadline is exceeded
before the drain stops. -/
theorem C6_interrupt_and_drain_spec (st : KState) (env : DrainEnv) :
    ((st.hasManager = false ∨ st.hasClient = false) →
        interrupt_and_drain st env = ⟨.ok st, false, false⟩) ∧
    (st.hasManager = true → st.hasClient = true →
        (interrupt_and_drain st env).interruptSent = true ∧
        ((interrupt_and_drain st env).startCalled = true ↔
          env.interruptOk = false ∨ drainLoop env.reads = .hitDeadline)) ∧
    (∀ rest : List DrainRead, drainLoop (.readTimeout :: rest) = .wentQuiet) ∧
    (∀ rest : List DrainRead, drainLoop (.readError :: rest) = .wentQuiet) ∧
    (∀ (p : Option Nat) (rest : List DrainRead),
        drainLoop (.dmsg (.statusMsg p "idle") :: rest) = .sawIdle) := by
  refine ⟨?_, ?_, fun rest => rfl, fun rest => rfl, fun p rest => by simp [drainLoop]⟩
  · intro h
    unfold interrupt_and_drain
    rcases h with h | h <;> rw [h] <;> simp
  · intro hm hc
    unfold interrupt_and_drain
    rw [hm, hc]
    by_cases hi : env.interruptOk
    · rw [hi]
      cases hd : drainLoop env.reads with
      | hitDeadline =>
        cases hs : start env.restartOutcomes <;> simp [hi, hd]
      | sawIdle => simp [hi, hd]
      | wentQuiet => simp [hi, hd]
    · have hi' : env.interruptOk = false := by simpa using hi
      rw [hi']
      cases hs : start env.restartOutcomes <;> simp [hi']

/-- Counterexample to C6 as stated: the claim classifies exceeding the total
drain deadline as a normal stop and restricts forced restarts to a failed
interrupt or an error raised by the drain reads; at this input the interrupt
succeeds and no read raises, yet the deadline fires and `start()` is
called. -/
theorem C6_interrupt_and_drain_spec_counterexample :
    ¬ (((interrupt_and_drain ⟨true, true, true, true⟩
          ⟨true, [], [.ready]⟩).startCalled = true) ↔
        ((⟨true, [], [.ready]⟩ : DrainEnv).interruptOk = false ∨
          DrainRead.readError ∈ (⟨true, [], [.ready]⟩ : DrainEnv).reads)) := by
  decide

/-- Witness for C6 (amended) at concrete inputs: a no-op on a client-less
state, a failed interrupt forcing a restart, and a quiet drain read. -/
theorem C6_interrupt_and_drain_spec_witness :
    (interrupt_and_drain ⟨true, false, false, false⟩ ⟨true, [], []⟩
        = ⟨.ok ⟨true, false, false, false⟩, false, false⟩) ∧
    ((interrupt_and_drain ⟨true, true, true, true⟩ ⟨false, [], [.ready]⟩).interruptSent
        = true ∧
      ((interrupt_and_drain ⟨true, true, true, true⟩
            ⟨false, [], [.ready]⟩).startCalled = true ↔
        (⟨false, [], [.ready]⟩ : DrainEnv).interruptOk = false ∨
          drainLoop (⟨false, [], [.ready]⟩ : DrainEnv).reads = .hitDeadline)) ∧
    drainLoop [.readTimeout] = .wentQuiet :=
  ⟨(C6_interrupt_and_drain_spec ⟨true, false, false, false⟩ ⟨true, [], []⟩).1 (Or.inr rfl),
   (C6_interrupt_and_drain_spec ⟨true, true, true, true⟩ ⟨false, [], [.ready]⟩).2.1 rfl rfl,
   (C6_interrupt_and_drain_spec ⟨true, true, true, true⟩ ⟨true, [], []⟩).2.2.1 []⟩

/-- Invariant of a successful retry loop: the attempts used stay within the
remaining fuel, and exactly one more attempt ran than sleeps were taken
(each failed attempt sleeps once before the next try). -/
theorem startLoop_ok_inv (outcomes : List AttemptOutcome) :
    ∀ (fuel used sleeps : Nat) (stats : StartStats),
      startLoop outcomes fuel used sleeps = .ok stats →
      stats.attemptsUsed ≤ used + fuel ∧
      stats.attemptsUsed + sleeps = stats.sleeps + used + 1 := by
  intro fuel
  induction fuel with
  | zero =>
    intro used sleeps stats h
    exact absurd h (by simp [startLoop])
  | succ n ih =>
    intro used sleeps stats h
    unfold startLoop at h
    cases ho : outcomes.getD used .failAlive with
    | ready =>
      rw [ho] at h
      simp only [Except.ok.injEq] at h
      subst h
      dsimp only
      exact ⟨by omega, by omega⟩
    | failDead => rw [ho] at h; exact absurd h (by simp)
    | failAlive =>
      rw [ho] at h
      obtain ⟨h1, h2⟩ := ih (used + 1) (sleeps + 1) stats h
      exact ⟨by omega, by omega⟩

/-- A confirmed-dead attempt aborts the loop at once with the fatal error,
whatever the outcomes of the attempts that would have followed. -/
theorem startLoop_dead (outcomes : List AttemptOutcome) :
    ∀ (fuel k used sleeps : Nat), k < fuel →
      (∀ j, used ≤ j → j < used + k → outcomes.getD j .failAlive = .failAlive) →
      outcomes.getD (used + k) .failAlive = .failDead →
      startLoop outcomes fuel used sleeps = .error .diedDuringStartup := by
  intro fuel
  induction fuel with
  | zero => intro k used sleeps hk; omega
  | succ n ih =>
    intro k used sleeps hk hall hd
    cases k with
    | zero =>
      unfold startLoop
      rw [show outcomes.getD used .failAlive = .failDead from by simpa using hd]
    | succ k' =>
      have hfirst : outcomes.getD used .failAlive = .failAlive :=
        hall used le_rfl (by omega)
      unfold startLoop
      rw [hfirst]
      exact ih k' (used + 1) (sleeps + 1) (by omega)
        (fun j h1 h2 => hall j (by omega) (by omega))
        (by rw [show used + 1 + k' = used + (k' + 1) from by omega]; exact hd)

/-- Exhausting the fuel with attempts that all fail (process still alive)
ends in the fatal exhaustion error. -/
theorem startLoop_exhaust (outcomes : List AttemptOutcome) :
    ∀ (fuel used sleeps : Nat),
      (∀ j, used ≤ j → j < used + fuel → outcomes.getD j .failAlive = .failAlive) →
      startLoop outcomes fuel used sleeps = .error .startExhausted := by
  intro fuel
  induction fuel with
  | zero => intro used sleeps hall; rfl
  | succ n ih =>
    intro used sleeps hall
    have hfirst : outcomes.getD used .failAlive = .failAlive :=
      hall used le_rfl (by omega)
    unfold startLoop
    rw [hfirst]
    exact ih (used + 1) (sleeps + 1) (fun j h1 h2 => hall j (by omega) (by omega))

/-- C7: `start()` makes at most five readiness attempts, sleeping one second
after each failed one; a liveness check reporting the process dead aborts
the remaining retries immediately with the fatal startup error, regardless
of any later outcome; exhausting all five attempts also fails fatally; and
a startup error raised inside `execute`'s self-heal propagates to
`execute`'s caller unchanged — the engine does not retry it. -/
theorem C7_startup_retry_policy :
    (∀ (outcomes : List AttemptOutcome) (stats : StartStats),
        start outcomes = .ok stats →
        stats.attemptsUsed ≤ 5 ∧ stats.sleeps + 1 = stats.attemptsUsed) ∧
    (∀ (outcomes : List AttemptOutcome) (k : Nat), k < 5 →
        (∀ j, j < k → outcomes.getD j .failAlive = .failAlive) →
        outcomes.getD k .failAlive = .failDead →
        start outcomes = .error .diedDuringStartup) ∧
    (∀ outcomes : List AttemptOutcome,
        (∀ j, j < 5 → outcomes.getD j .failAlive = .failAlive) →
        start outcomes = .error .startExhausted) ∧
    (∀ (st : KState) (t : Nat) (env : ExecEnv) (e : StartErr),
        (st.hasClient = false ∨ st.hasKernel = false) →
        start env.selfHealOutcomes = .error e →
        execute st t env = .error e) := by
  refine ⟨?_, ?_, ?_, ?_⟩
  · intro outcomes stats h
    obtain ⟨h1, h2⟩ := startLoop_ok_inv outcomes 5 0 0 stats h
    exact ⟨by omega, by omega⟩
  · intro outcomes k hk hall hd
    exact startLoop_dead outcomes 5 k 0 0 hk
      (fun j h1 h2 => hall j (by omega)) (by simpa using hd)
  · intro outcomes hall
    exact startLoop_exhaust outcomes 5 0 0 (fun j h1 h2 => hall j (by omega))
  · intro st t env e hmiss hstart
    have hsh : selfHealStep st env = .error e := by
      unfold selfHealStep
      rcases hmiss with h | h <;> rw [h] <;> simp [hstart]
    unfold execute
    rw [hsh]

/-- Witness for C7 at concrete attempt lists: success on the second attempt,
death on the second attempt, five alive failures, and propagation of the
dead-startup error out of `execute`. -/
theorem C7_startup_retry_policy_witness :
    ((StartStats.mk 2 1).attemptsUsed ≤ 5 ∧
      (StartStats.mk 2 1).sleeps + 1 = (StartStats.mk 2 1).attemptsUsed) ∧
    (start [.failAlive, .failDead, .ready] = .error .diedDuringStartup) ∧
    (start [.failAlive, .failAlive, .failAlive, .failAlive, .failAlive]
        = .error .startExhausted) ∧
    (execute ⟨true, false, false, false⟩ 10
        ⟨1, some true, [.failDead], [], [], [], none, ⟨true, [], []⟩⟩
      = .error .diedDuringStartup) :=
  ⟨C7_startup_retry_policy.1 [.failAlive, .ready] ⟨2, 1⟩ (by decide),
   C7_startup_retry_policy.2.1 [.failAlive, .failDead, .ready] 1 (by decide)
     (by decide) (by decide),
   C7_startup_retry_policy.2.2.1 [.failAlive, .failAlive, .failAlive, .failAlive, .failAlive]
     (by decide),
   C7_startup_retry_policy.2.2.2 ⟨true, false, false, false⟩ 10
     ⟨1, some true, [.failDead], [], [], [], none, ⟨true, [], []⟩⟩ .diedDuringStartup
     (Or.inl rfl) (by decide)⟩

/-- C8: at the start of every `execute` call, before submitting: a missing
client or kernel triggers `start()`; a liveness check finding the process
not alive (or unable to answer) triggers `start()` again; and the pre-flush
discards every already-queued publish message, so the call's outcome is
independent of them.  An `execute` issued after the process was killed
out-of-band therefore proceeds from a freshly started session instead of
failing. -/
theorem C8_self_heal_and_preflush :
    (∀ (st : KState) (t : Nat) (env : ExecEnv) (stats : StartStats),
        (st.hasClient = false ∨ st.hasKernel = false) →
        start env.selfHealOutcomes = .ok stats →
        env.aliveResult = some true →
        execute st t env = submitAndCollect startedState t env 1) ∧
    (∀ (st : KState) (t : Nat) (env : ExecEnv) (stats : StartStats),
        st.hasClient = true → st.hasKernel = true →
        env.aliveResult.getD false = false →
        start env.reviveOutcomes = .ok stats →
        execute st t env = submitAndCollect startedState t env 1) ∧
    (∀ (st : KState) (t : Nat) (env : ExecEnv) (q : List Msg),
        execute st t env = execute st t { env with queued := q }) := by
  refine ⟨?_, ?_, ?_⟩
  · intro st t env stats hmiss hstart halive
    have hsh : selfHealStep st env = .ok (startedState, 1) := by
      unfold selfHealStep
      rcases hmiss with h | h <;> rw [h] <;> simp [hstart]
    have hrv : reviveStep startedState env 1 = .ok (startedState, 1) := by
      unfold reviveStep; rw [halive]; simp
    unfold execute
    rw [hsh]
    dsimp only
    rw [hrv]
  · intro st t env stats hclient hkernel halive hstart
    have hsh : selfHealStep st env = .ok (st, 0) := by
      unfold selfHealStep; rw [hclient, hkernel]; simp
    have hrv : reviveStep st env 0 = .ok (startedState, 1) := by
      unfold reviveStep; rw [halive]; simp [hstart]
    unfold execute
    rw [hsh]
    dsimp only
    rw [hrv]
  · intro st t env q
    simp only [execute, selfHealStep, reviveStep, submitAndCollect, timeoutPath,
      flush_iopub_eq_nil]

/-- Witness for C8 at a concrete run whose process was killed out-of-band:
the liveness check fails and the call proceeds from the restarted session. -/
theorem C8_self_heal_and_preflush_witness :
    (execute ⟨true, true, true, true⟩ 10
        ⟨5, some false, [], [.ready],
         [Msg.stream (some 4) "stdout" "old"],
         [Msg.statusMsg (some 5) "idle"], some ⟨some "ok"⟩, ⟨true, [], []⟩⟩
      = submitAndCollect startedState 10
          ⟨5, some false, [], [.ready],
           [Msg.stream (some 4) "stdout" "old"],
           [Msg.statusMsg (some 5) "idle"], some ⟨some "ok"⟩, ⟨true, [], []⟩⟩ 1) ∧
    (execute ⟨true, true, true, true⟩ 10
        ⟨5, some true, [], [], [], [Msg.statusMsg (some 5) "idle"],
         some ⟨some "ok"⟩, ⟨true, [], []⟩⟩
      = execute ⟨true, true, true, true⟩ 10
          ⟨5, some true, [], [],
           [Msg.stream (some 4) "stdout" "old"],
           [Msg.statusMsg (some 5) "idle"], some ⟨some "ok"⟩, ⟨true, [], []⟩⟩) :=
  ⟨C8_self_heal_and_preflush.2.1 ⟨true, true, true, true⟩ 10
     ⟨5, some false, [], [.ready],
      [Msg.stream (some 4) "stdout" "old"],
      [Msg.statusMsg (some 5) "idle"], some ⟨some "ok"⟩, ⟨true, [], []⟩⟩ ⟨1, 0⟩
     rfl rfl rfl (by decide),
   C8_self_heal_and_preflush.2.2 ⟨true, true, true, true⟩ 10
     ⟨5, some true, [], [], [], [Msg.statusMsg (some 5) "idle"],
      some ⟨some "ok"⟩, ⟨true, [], []⟩⟩
     [Msg.stream (some 4) "stdout" "old"]⟩

/-- `shutdown` never raises, and its result has the kernel shut down (when a
manager exists) and the channels stopped (when a client existed). -/
theorem shutdown_total (st : KState) :
    ∃ st' : KState, shutdown st = .ok st' ∧
      (st.hasManager = true → st'.hasKernel = false) ∧
      (st.hasClient = true → st'.channelsRunning = false) := by
  by_cases hc : st.hasClient = true <;> by_cases hm : st.hasManager = true
  · refine ⟨⟨st.hasManager, st.hasClient, false, false⟩, ?_, fun _ => rfl, fun _ => rfl⟩
    simp [shutdown, stop_channels, shutdown_kernel, hc, hm]
  · refine ⟨⟨st.hasManager, st.hasClient, st.hasKernel, false⟩, ?_,
      fun h => absurd h hm, fun _ => rfl⟩
    simp [shutdown, stop_channels, shutdown_kernel, hc, hm]
  · refine ⟨⟨st.hasManager, st.hasClient, false, st.channelsRunning⟩, ?_,
      fun _ => rfl, fun h => absurd h hc⟩
    simp only [shutdown, stop_channels, shutdown_kernel, hc, hm]
    simp [hc, hm]
    rfl
  · refine ⟨st, ?_, fun h => absurd h hm, fun h => absurd h hc⟩
    simp [shutdown, stop_channels, shutdown_kernel, hc, hm]
    rfl

/-- C9: `shutdown()` stops the channels when a client exists and then
requests kernel shutdown, and it is idempotent: it completes without error
on every state — in particular on a never-started session — and calling it
again on its own result state also completes without error. -/
theorem C9_shutdown_idempotent :
    (∀ st : KState, ∃ st' : KState, shutdown st = .ok st' ∧
        (st.hasManager = true → st'.hasKernel = false) ∧
        (st.hasClient = true → st'.channelsRunning = false)) ∧
    (shutdown ⟨true, false, false, false⟩ = .ok ⟨true, false, false, false⟩) ∧
    (∀ st st' : KState, shutdown st = .ok st' →
        ∃ st'' : KState, shutdown st' = .ok st'') := by
  refine ⟨fun st => shutdown_total st, by decide, ?_⟩
  intro st st' _
  obtain ⟨st'', h, -, -⟩ := shutdown_total st'
  exact ⟨st'', h⟩

/-- Witness for C9: a second shutdown after shutting down a started session
completes without error. -/
theorem C9_shutdown_idempotent_witness :
    ∃ st'' : KState, shutdown ⟨true, true, false, false⟩ = .ok st'' :=
  C9_shutdown_idempotent.2.2 ⟨true, true, true, true⟩ ⟨true, true, false, false⟩
    (by decide)

end SandboxRuntime
